import Mathlib

/-!
Verification of the rensa dependency-scanner core (Rust) against its
natural-language specification, via a shallow embedding in Lean 4.

The embedding follows `src/core/src/version.rs`, `report.rs`, `scanner.rs`,
`plugin.rs`, `cache.rs` and `http.rs`.  Machine integers (`u64`, `usize`)
are modelled as `Nat`; the source never relies on wrap-around (semver's
`u64` parse rejects overflow, which the parser model mirrors with an
explicit `< 2 ^ 64` bound), and `saturating_sub` coincides with truncated
`Nat` subtraction.  Fallible Rust functions returning `Result` are
modelled with `Except`; external I/O (HTTP attempts, the file system,
serde deserialization) is modelled by explicit function parameters
describing the environment's responses.
-/

namespace Rensa

/-! ## Semantic versions (the `semver` crate's `Version`, as used by
`version.rs`)

`semver::Version::parse` accepts `major.minor.patch` of decimal numerals
without leading zeros (each bounded by `u64`), optionally followed by
`-` and a dot-separated pre-release (identifiers of ASCII alphanumerics
and hyphens, numeric identifiers without leading zeros) and by `+` and a
dot-separated build metadata (non-empty alphanumeric/hyphen identifiers).
-/

structure SemVer where
  major : Nat
  minor : Nat
  patch : Nat
  pre : List String
  build : List String
deriving DecidableEq

def digitsToNat (ds : List Char) : Nat :=
  ds.foldl (fun n c => n * 10 + (c.toNat - '0'.toNat)) 0

/-- Parse a leading decimal numeral: non-empty, no leading zero, `u64`-bounded.
Returns the value and the remaining characters. -/
def parseNumericPart (s : List Char) : Option (Nat × List Char) :=
  let ds := s.takeWhile Char.isDigit
  let rest := s.dropWhile Char.isDigit
  if ds.isEmpty then none
  else if 1 < ds.length ∧ ds.head? = some '0' then none
  else if 2 ^ 64 ≤ digitsToNat ds then none
  else some (digitsToNat ds, rest)

def isIdentChar (c : Char) : Bool :=
  c.isDigit || c.isAlpha || c = '-'

/-- Split a character list on `'.'` (keeping empty segments). -/
def splitDots : List Char → List (List Char)
  | [] => [[]]
  | c :: t =>
    if c = '.' then [] :: splitDots t
    else
      match splitDots t with
      | [] => [[c]]
      | g :: gs => (c :: g) :: gs

/-- A valid pre-release identifier: non-empty, alphanumeric/hyphen, and if
purely numeric then without leading zeros. -/
def validPreIdent (s : List Char) : Bool :=
  !s.isEmpty && s.all isIdentChar &&
    (if s.all Char.isDigit then decide (s.length = 1 ∨ s.head? ≠ some '0') else true)

/-- A valid build-metadata identifier: non-empty, alphanumeric/hyphen
(leading zeros are allowed here). -/
def validBuildIdent (s : List Char) : Bool :=
  !s.isEmpty && s.all isIdentChar

def parsePreList (s : List Char) : Option (List String) :=
  let parts := splitDots s
  if parts.all validPreIdent then some (parts.map (fun l => String.mk l)) else none

def parseBuildList (s : List Char) : Option (List String) :=
  let parts := splitDots s
  if parts.all validBuildIdent then some (parts.map (fun l => String.mk l)) else none

def expectDot : List Char → Option (List Char)
  | '.' :: t => some t
  | _ => none

/-- The core of `semver::Version::parse` on a character list. -/
def parseSemVerChars (s : List Char) : Option SemVer := do
  let (mjr, r1) ← parseNumericPart s
  let r2 ← expectDot r1
  let (mnr, r3) ← parseNumericPart r2
  let r4 ← expectDot r3
  let (pat, r5) ← parseNumericPart r4
  match r5 with
  | [] => some ⟨mjr, mnr, pat, [], []⟩
  | '-' :: t =>
    let preChars := t.takeWhile (fun c => c ≠ '+')
    let after := t.dropWhile (fun c => c ≠ '+')
    let pre ← parsePreList preChars
    match after with
    | [] => some ⟨mjr, mnr, pat, pre, []⟩
    | '+' :: b => do
      let bl ← parseBuildList b
      some ⟨mjr, mnr, pat, pre, bl⟩
    | _ => none
  | '+' :: b => do
    let bl ← parseBuildList b
    some ⟨mjr, mnr, pat, [], bl⟩
  | _ => none

/-- Model of `semver::Version::parse` (`Ok` ↦ `some`, `Err` ↦ `none`). -/
def Version.parse (s : String) : Option SemVer :=
  parseSemVerChars s.data

/-! ### Precedence ordering of the `semver` crate (`Ord for Version`):
major, minor, patch, then pre-release (a release sorts above any
pre-release; identifiers compare numerically when both numeric, numeric
below alphanumeric, otherwise byte-lexicographically), with build
metadata as the final tie-break (absent sorts first). -/

def identCmp (a b : String) : Ordering :=
  if a.data.all Char.isDigit then
    if b.data.all Char.isDigit then compare (digitsToNat a.data) (digitsToNat b.data)
    else .lt
  else
    if b.data.all Char.isDigit then .gt
    else compare a b

def identListCmp : List String → List String → Ordering
  | [], [] => .eq
  | [], _ :: _ => .lt
  | _ :: _, [] => .gt
  | x :: xs, y :: ys =>
    match identCmp x y with
    | .eq => identListCmp xs ys
    | o => o

/-- Pre-release comparison: an empty pre-release list (a release) sorts
above any non-empty one. -/
def preCmp (a b : List String) : Ordering :=
  match a, b with
  | [], [] => .eq
  | [], _ :: _ => .gt
  | _ :: _, [] => .lt
  | _, _ => identListCmp a b

/-- Build-metadata comparison: absent sorts first, then identifier-wise. -/
def buildCmp (a b : List String) : Ordering :=
  identListCmp a b

def semverCmp (a b : SemVer) : Ordering :=
  match compare a.major b.major with
  | .eq =>
    match compare a.minor b.minor with
    | .eq =>
      match compare a.patch b.patch with
      | .eq =>
        match preCmp a.pre b.pre with
        | .eq => buildCmp a.build b.build
        | o => o
      | o => o
    | o => o
  | o => o

def semverLt (a b : SemVer) : Bool :=
  semverCmp a b = Ordering.lt

def semverLe (a b : SemVer) : Bool :=
  semverCmp a b ≠ Ordering.gt

/-! ## `version.rs`: `UpdateType` and `VersionComparator` -/

inductive UpdateType where
  | Major
  | Minor
  | Patch
  | Security
  | None
  | Unknown
deriving DecidableEq

def UpdateType.priority : UpdateType → Nat
  | .Security => 0
  | .Major => 1
  | .Minor => 2
  | .Patch => 3
  | .None => 4
  | .Unknown => 5

inductive VersionConstraint where
  | Range (v : String)
  | Exact (v : String)
  | GreaterThanEqual (v : String)
  | Caret (v : String)
  | Tilde (v : String)
deriving DecidableEq

namespace VersionComparator

/-- `VersionComparator::classify_update`. -/
def classify_update (current latest : String) : UpdateType :=
  match Version.parse current, Version.parse latest with
  | some c, some l =>
    if c.major < l.major then .Major
    else if c.minor < l.minor then .Minor
    else if c.patch < l.patch then .Patch
    else .None
  | _, _ => .Unknown

/-- `split('.')` on a string, as a list of substrings (executable model of
`version.split('.').collect::<Vec<_>>()`). -/
def splitOnDot (s : String) : List String :=
  (splitDots s.data).map (fun l => String.mk l)

/-- `VersionComparator::pad_version`: zero-pad partial versions by the
number of `'.'`-separated parts. -/
def pad_version (version : String) : String :=
  let parts := splitOnDot version
  match parts.length with
  | 1 => version ++ ".0.0"
  | 2 => version ++ ".0"
  | _ => version

/-- `VersionComparator::parse_version`: pad, then parse. -/
def parse_version (version : String) : Option SemVer :=
  Version.parse (pad_version version)

/-- `VersionComparator::parse_caret_range`. -/
def parse_caret_range (constraint version : String) : Bool :=
  match parse_version constraint with
  | none => false
  | some cv =>
    match Version.parse version with
    | none => false
    | some ver =>
      if cv.major = 0 then
        if ver.major = 0 ∧ ver.minor = cv.minor ∧ cv.patch ≤ ver.patch then true else false
      else if ver.major ≠ cv.major then false
      else if cv.minor < ver.minor then true
      else if ver.minor = cv.minor ∧ cv.patch ≤ ver.patch then true
      else false

/-- `VersionComparator::parse_tilde_range`. -/
def parse_tilde_range (constraint version : String) : Bool :=
  let padded := pad_version constraint
  match Version.parse padded with
  | none => false
  | some cv =>
    match Version.parse version with
    | none => false
    | some ver =>
      if semverLt ver cv then false
      else
        let parts := splitOnDot constraint
        if parts.length = 1 then decide (ver.major = cv.major)
        else if ver.major ≠ cv.major then false
        else decide (ver.minor = cv.minor)

/-- `VersionComparator::satisfies`.  The `Range` branch delegates to the
external `semver::VersionReq` parser/matcher, which is not part of this
repository; it is abstracted as the parameter `rreq` mapping a range
expression to `some` matcher on parsed versions (`VersionReq::parse` ok)
or `none` (parse failure). -/
def satisfies (rreq : String → Option (SemVer → Bool))
    (constraint : VersionConstraint) (version : String) : Bool :=
  match constraint with
  | .Exact v => version = v
  | .Range v =>
    match rreq v with
    | some matcher =>
      match Version.parse version with
      | some ver => matcher ver
      | none => false
    | none => false
  | .GreaterThanEqual v =>
    match parse_version v with
    | some minv =>
      match Version.parse version with
      | some ver => semverLe minv ver
      | none => false
    | none => false
  | .Caret v => parse_caret_range v version
  | .Tilde v => parse_tilde_range v version

end VersionComparator

/-! ## Core data types (`types/`): ecosystems, dependencies, updates,
vulnerabilities.  `PathBuf` is modelled as `String`. -/

inductive Ecosystem where
  | Composer | Npm | Cargo | PyPI | Pip | Go | Maven | NuGet | Gem | Dotnet
  | GitHubActions
deriving DecidableEq

inductive Severity where
  | Low | Medium | High | Critical | Unknown
deriving DecidableEq

structure DependencyFile where
  ecosystem : Ecosystem
  path : String
  content : String
deriving DecidableEq

structure Dependency where
  name : String
  version : String
  constraint : VersionConstraint
  file : String
deriving DecidableEq

structure UpdateInfo where
  dependency : Dependency
  current_version : String
  latest_version : String
  changelog : Option String
deriving DecidableEq

structure Vulnerability where
  id : String
  summary : String
  details : String
  severity : Severity
  affected_versions : List String
  fixed_versions : List String
  references : List String
deriving DecidableEq

/-- `RensaError` (`error.rs`), with external error payloads (`reqwest`,
`serde_json`, `std::io`) flattened to message strings. -/
inductive RensaError where
  | DependencyNotFound (name : String)
  | RegistryError (registry : String)
  | VulnerabilityError (source : String)
  | Config (message : String)
  | ParseError (file : String)
  | Io (source : String)
  | Plugin (message : String)
  | Cache (message : String)
deriving DecidableEq

/-! ## `report.rs`: `ScanSummary`, `EcosystemScanResult`, `ScanReport` -/

structure ScanSummary where
  updates_available : Nat
  vulnerabilities_found : Nat
  critical_vulnerabilities : Nat
  high_vulnerabilities : Nat
  medium_vulnerabilities : Nat
  low_vulnerabilities : Nat
  outdated_dependencies : Nat
  up_to_date_dependencies : Nat
deriving DecidableEq

def ScanSummary.default : ScanSummary :=
  ⟨0, 0, 0, 0, 0, 0, 0, 0⟩

structure EcosystemScanResult where
  ecosystem : Ecosystem
  files_found : List String
  dependencies : List Dependency
  updates : List UpdateInfo
  vulnerabilities : List Vulnerability
  errors : List String
deriving DecidableEq

/-- The report's `HashMap<Ecosystem, EcosystemScanResult>` is modelled as
an association list; `insert` overwrites an existing key in place and
otherwise appends. -/
def assocInsert (m : List (Ecosystem × EcosystemScanResult)) (k : Ecosystem)
    (v : EcosystemScanResult) : List (Ecosystem × EcosystemScanResult) :=
  if m.any (fun p => p.1 = k) then
    m.map (fun p => if p.1 = k then (k, v) else p)
  else
    m ++ [(k, v)]

structure ScanReport where
  timestamp : Nat
  scanned_path : String
  elapsed : Nat
  total_dependency_files : Nat
  total_dependencies : Nat
  summary : ScanSummary
  ecosystem_results : List (Ecosystem × EcosystemScanResult)
  updates : List UpdateInfo
  vulnerabilities : List Vulnerability
  warnings : List String
  errors : List String
deriving DecidableEq

/-- `ScanReport::new` (the wall-clock timestamp is a parameter). -/
def ScanReport.new (timestamp : Nat) (scanned_path : String) : ScanReport :=
  { timestamp := timestamp
    scanned_path := scanned_path
    elapsed := 0
    total_dependency_files := 0
    total_dependencies := 0
    summary := ScanSummary.default
    ecosystem_results := []
    updates := []
    vulnerabilities := []
    warnings := []
    errors := [] }

/-- The `for vuln in &result.vulnerabilities` severity-classification loop
of `ScanReport::add_ecosystem_result`. -/
def countSeverities (summary : ScanSummary) (vulns : List Vulnerability) : ScanSummary :=
  vulns.foldl
    (fun s v =>
      match v.severity with
      | .Low => { s with low_vulnerabilities := s.low_vulnerabilities + 1 }
      | .Medium => { s with medium_vulnerabilities := s.medium_vulnerabilities + 1 }
      | .High => { s with high_vulnerabilities := s.high_vulnerabilities + 1 }
      | .Critical => { s with critical_vulnerabilities := s.critical_vulnerabilities + 1 }
      | .Unknown => s)
    summary

/-- `ScanReport::add_ecosystem_result`, statement for statement: the raw
`updates_available += updates.len()` and
`low_vulnerabilities += vulnerabilities.len()` increments, the severity
loop, the outdated/up-to-date counters (`saturating_sub` is `Nat`
subtraction), and the map insert. -/
def ScanReport.add_ecosystem_result (report : ScanReport) (ecosystem : Ecosystem)
    (result : EcosystemScanResult) : ScanReport :=
  let s0 := report.summary
  let s1 := { s0 with
    updates_available := s0.updates_available + result.updates.length
    low_vulnerabilities := s0.low_vulnerabilities + result.vulnerabilities.length }
  let s2 := countSeverities s1 result.vulnerabilities
  let s3 := { s2 with
    outdated_dependencies := s2.outdated_dependencies + result.updates.length
    up_to_date_dependencies := s2.up_to_date_dependencies +
      (result.dependencies.length - result.updates.length) }
  { report with
    total_dependency_files := report.total_dependency_files + result.files_found.length
    total_dependencies := report.total_dependencies + result.dependencies.length
    summary := s3
    ecosystem_results := assocInsert report.ecosystem_results ecosystem result }

/-! ## `plugin.rs` / `scanner.rs`: capabilities and the scan pipeline

A registered capability is modelled as the function the trait object
provides; an unregistered one as `none`.  Async I/O effects are modelled
by the functions' return values. -/

/-- The provided (default) `RegistryClient::get_update_info`, in terms of
`get_latest_version`: a reported latest version is wrapped into an
`UpdateInfo` unconditionally — no comparison with the current version. -/
def defaultGetUpdateInfo (getLatestVersion : Dependency → Except RensaError (Option String))
    (dep : Dependency) : Except RensaError (Option UpdateInfo) :=
  match getLatestVersion dep with
  | .error e => .error e
  | .ok none => .ok none
  | .ok (some latest) =>
    .ok (some { dependency := dep
                current_version := dep.version
                latest_version := latest
                changelog := none })

/-- The per-dependency loop of `Scanner::scan` (lines 47–58): for each
dependency, a registered registry client is consulted first and its error
propagates via `?`; then a registered vulnerability scanner is consulted
and its error is discarded by `if let Ok(vulns)`.  Returns the collected
`updates` and `vulnerabilities` vectors. -/
def processDeps (client : Option (Dependency → Except RensaError (Option UpdateInfo)))
    (scanner : Option (Dependency → Except RensaError (List Vulnerability))) :
    List Dependency → Except RensaError (List UpdateInfo × List Vulnerability)
  | [] => .ok ([], [])
  | dep :: rest =>
    let updStep : Except RensaError (List UpdateInfo) :=
      match client with
      | none => .ok []
      | some c =>
        match c dep with
        | .error e => .error e
        | .ok none => .ok []
        | .ok (some info) => .ok [info]
    match updStep with
    | .error e => .error e
    | .ok upd =>
      let vul : List Vulnerability :=
        match scanner with
        | none => []
        | some s =>
          match s dep with
          | .ok vulns => vulns
          | .error _ => []
      match processDeps client scanner rest with
      | .error e => .error e
      | .ok (updates, vulnerabilities) => .ok (upd ++ updates, vul ++ vulnerabilities)

/-- The per-file loop of `Scanner::scan`: missing parser records a warning
and skips the file; a parser failure propagates; otherwise the
per-dependency loop runs and the ecosystem result is folded into the
report. -/
def scanGo (parsers : Ecosystem → Option (DependencyFile → Except RensaError (List Dependency)))
    (clients : Ecosystem → Option (Dependency → Except RensaError (Option UpdateInfo)))
    (scanners : Ecosystem → Option (Dependency → Except RensaError (List Vulnerability))) :
    List DependencyFile → ScanReport → Except RensaError ScanReport
  | [], report => .ok report
  | file :: rest, report =>
    match parsers file.ecosystem with
    | none =>
      scanGo parsers clients scanners rest
        { report with warnings := report.warnings ++ ["No parser for ecosystem"] }
    | some p =>
      match p file with
      | .error e => .error e
      | .ok deps =>
        match processDeps (clients file.ecosystem) (scanners file.ecosystem) deps with
        | .error e => .error e
        | .ok (updates, vulnerabilities) =>
          let result : EcosystemScanResult :=
            { ecosystem := file.ecosystem
              files_found := [file.path]
              dependencies := deps
              updates := updates
              vulnerabilities := vulnerabilities
              errors := [] }
          scanGo parsers clients scanners rest
            (report.add_ecosystem_result file.ecosystem result)

/-- `Scanner::scan`: `detect` is the outcome of
`PluginRegistry::detect_all` (its failure aborts the scan before any file
is processed); wall-clock elapsed time is not modelled. -/
def Scanner.scan (detect : Except RensaError (List DependencyFile))
    (parsers : Ecosystem → Option (DependencyFile → Except RensaError (List Dependency)))
    (clients : Ecosystem → Option (Dependency → Except RensaError (Option UpdateInfo)))
    (scanners : Ecosystem → Option (Dependency → Except RensaError (List Vulnerability)))
    (timestamp : Nat) (path : String) : Except RensaError ScanReport :=
  match detect with
  | .error e => .error e
  | .ok files => scanGo parsers clients scanners files (ScanReport.new timestamp path)

/-! ## `cache.rs`: `CacheEntry`, `CacheManager::get`

Time is modelled by an explicit `now` parameter (seconds since the Unix
epoch, as produced by `SystemTime::UNIX_EPOCH.elapsed().as_secs()`).
The file system is modelled as a function from a file path to what
reading that path yields, and `serde_json::from_str` as a function from
file content to an optional decoded entry. -/

structure CacheEntry (α : Type) where
  data : α
  timestamp : Nat
  ttl_seconds : Nat
deriving DecidableEq

/-- `CacheEntry::is_expired`: ttl 0 is always expired; otherwise expired
iff `now > timestamp + ttl_seconds` (strictly). -/
def CacheEntry.is_expired {α : Type} (e : CacheEntry α) (now : Nat) : Bool :=
  if e.ttl_seconds = 0 then true
  else decide (e.timestamp + e.ttl_seconds < now)

/-- The errors `CacheManager::get` can produce (`CacheError::ReadError`,
`CacheError::DeserializationError`). -/
inductive CacheError where
  | ReadError
  | DeserializationError
deriving DecidableEq

/-- What reading a cache file can yield: the path does not exist
(`!cache_path.exists()`), `fs::read_to_string` fails, or the file's
content. -/
inductive FileRead where
  | absent
  | readFailure
  | content (s : String)
deriving DecidableEq

/-- `CacheManager::path_for`. -/
def path_for (base dir key : String) : String :=
  base ++ "/" ++ dir ++ "/" ++ key ++ ".json"

/-- `CacheManager::get`: absent file yields `Ok(None)`; a read failure
propagates; undeserializable content propagates as
`DeserializationError`; an expired entry yields `Ok(None)`; otherwise the
entry is returned. -/
def CacheManager.get {α : Type} (fs : String → FileRead)
    (deser : String → Option (CacheEntry α)) (now : Nat)
    (base dir key : String) : Except CacheError (Option (CacheEntry α)) :=
  match fs (path_for base dir key) with
  | .absent => .ok none
  | .readFailure => .error .ReadError
  | .content c =>
    match deser c with
    | none => .error .DeserializationError
    | some entry =>
      if entry.is_expired now then .ok none
      else .ok (some entry)

/-! ## `http.rs`: `HttpClient::fetch` / `fetch_post`

The two functions share one retry loop, differing only in how the
request is issued; the sequence of per-attempt outcomes of
`self.client.get(url).send().await` (respectively `.post(..).send()`)
is modelled as a function from the attempt index.  A successful-status
response carries `some` decoded payload when `response.json()` succeeds
and `none` when decoding fails. -/

inductive AttemptOutcome (α : Type) where
  | transportError
  | response (statusSuccess : Bool) (decoded : Option α)
deriving DecidableEq

inductive FetchResult (α : Type) where
  | success (value : α)
  | failure
  | panicked
deriving DecidableEq

/-- The observable outcome of one `fetch` call: its result, the backoff
sleeps performed (in seconds, in order), and the number of attempts
issued. -/
structure FetchTrace (α : Type) where
  result : FetchResult α
  sleeps : List Nat
  attempts : Nat
deriving DecidableEq

/-- The body of `for attempt in 0..=self.retries`, with
`remaining = retries - attempt` retries still allowed.  A success-status
response returns the decoded payload, or an error when decoding fails
(never retried).  A non-success response sleeps `2^attempt` seconds when
`attempt < retries` and retries; on the last attempt it merely exhausts
the loop, which ends at `unreachable!()` — modelled as `panicked`.  A
transport error likewise sleeps and retries, except on the last attempt,
where it is returned as the terminal error. -/
def fetchLoop {α : Type} (outcomes : Nat → AttemptOutcome α) (attempt : Nat) :
    Nat → FetchTrace α
  | 0 =>
    match outcomes attempt with
    | .response true (some v) => ⟨.success v, [], 1⟩
    | .response true none => ⟨.failure, [], 1⟩
    | .response false _ => ⟨.panicked, [], 1⟩
    | .transportError => ⟨.failure, [], 1⟩
  | remaining + 1 =>
    match outcomes attempt with
    | .response true (some v) => ⟨.success v, [], 1⟩
    | .response true none => ⟨.failure, [], 1⟩
    | .response false _ =>
      let t := fetchLoop outcomes (attempt + 1) remaining
      ⟨t.result, 2 ^ attempt :: t.sleeps, t.attempts + 1⟩
    | .transportError =>
      let t := fetchLoop outcomes (attempt + 1) remaining
      ⟨t.result, 2 ^ attempt :: t.sleeps, t.attempts + 1⟩

/-- `DEFAULT_RETRIES` in `http.rs`. -/
def DEFAULT_RETRIES : Nat := 3

/-- `HttpClient::fetch` (and `fetch_post`, whose retry loop is
identical). -/
def HttpClient.fetch {α : Type} (outcomes : Nat → AttemptOutcome α)
    (retries : Nat) : FetchTrace α :=
  fetchLoop outcomes 0 retries

instance {ε α : Type} [DecidableEq ε] [DecidableEq α] : DecidableEq (Except ε α) :=
  fun x y =>
    match x, y with
    | .ok a, .ok b =>
      if h : a = b then .isTrue (congrArg Except.ok h)
      else .isFalse (fun hh => h (Except.ok.inj hh))
    | .error a, .error b =>
      if h : a = b then .isTrue (congrArg Except.error h)
      else .isFalse (fun hh => h (Except.error.inj hh))
    | .ok _, .error _ => .isFalse (fun hh => Except.noConfusion hh)
    | .error _, .ok _ => .isFalse (fun hh => Except.noConfusion hh)

/-! # Theorems -/

/-- `classify_update`, rewritten with the two parses supplied. -/
lemma classify_update_of_parse {current latest : String} {c l : SemVer}
    (hc : Version.parse current = some c) (hl : Version.parse latest = some l) :
    VersionComparator.classify_update current latest =
      if c.major < l.major then .Major
      else if c.minor < l.minor then .Minor
      else if c.patch < l.patch then .Patch
      else .None := by
  unfold VersionComparator.classify_update
  rw [hc, hl]

/-- C1 (amended): for version strings that both parse, `classify_update`
follows the major/minor/patch cascade: `Major` iff the latest major is
strictly greater, otherwise `Minor` iff the latest minor is strictly
greater, otherwise `Patch` iff the latest patch is strictly greater,
otherwise `None`; if either string fails to parse, the result is
`Unknown`.  (The claim's parenthetical that every downgrade yields `None`
is dropped: see the counterexample.) -/
theorem classify_update_cascade :
    (∀ (current latest : String) (c l : SemVer),
      Version.parse current = some c → Version.parse latest = some l →
        (VersionComparator.classify_update current latest = .Major ↔ c.major < l.major) ∧
        (l.major ≤ c.major →
          (VersionComparator.classify_update current latest = .Minor ↔ c.minor < l.minor)) ∧
        (l.major ≤ c.major → l.minor ≤ c.minor →
          (VersionComparator.classify_update current latest = .Patch ↔ c.patch < l.patch)) ∧
        (l.major ≤ c.major → l.minor ≤ c.minor → l.patch ≤ c.patch →
          VersionComparator.classify_update current latest = .None)) ∧
    (∀ current latest : String,
      Version.parse current = none ∨ Version.parse latest = none →
        VersionComparator.classify_update current latest = .Unknown) := by
  constructor
  · intro current latest c l hc hl
    rw [classify_update_of_parse hc hl]
    refine ⟨?_, fun hmaj => ?_, fun hmaj hmin => ?_, fun hmaj hmin hpat => ?_⟩ <;>
      split_ifs <;> first | rfl | omega | simp_all
  · intro current latest h
    unfold VersionComparator.classify_update
    rcases h with h | h
    · rw [h]
    · rw [h]
      all_goals cases Version.parse current <;> rfl

/-- Witness for `classify_update_cascade` at `("1.2.3", "1.2.4")`. -/
theorem classify_update_cascade_witness :
    VersionComparator.classify_update "1.2.3" "1.2.4" = .Patch := by
  have h := classify_update_cascade.1 "1.2.3" "1.2.4" ⟨1, 2, 3, [], []⟩ ⟨1, 2, 4, [], []⟩
    (by decide) (by decide)
  exact (h.2.2.1 (by decide) (by decide)).mpr (by decide)

/-- C1 counterexample: `"1.0.1"` is a downgrade from `"2.0.0"` (it sorts
strictly below it), yet `classify_update "2.0.0" "1.0.1"` is `Patch`, not
`None` — the latest patch component is strictly greater, and the patch
comparison is reached because neither earlier component is strictly
greater.  This refutes the claim's "downgrades yield None". -/
theorem classify_update_downgrade_not_none :
    VersionComparator.classify_update "2.0.0" "1.0.1" = .Patch ∧
    VersionComparator.classify_update "2.0.0" "1.0.1" ≠ .None ∧
    Version.parse "2.0.0" = some ⟨2, 0, 0, [], []⟩ ∧
    Version.parse "1.0.1" = some ⟨1, 0, 1, [], []⟩ ∧
    semverLt ⟨1, 0, 1, [], []⟩ ⟨2, 0, 0, [], []⟩ = true := by
  decide

/-- C8: caret-constraint satisfaction.  With the constraint version
parsed (after zero-padding, as `parse_caret_range` does) and the
candidate parsed, a zero-major constraint requires identical major (= 0)
and minor with patch at least the constraint's; a non-zero-major
constraint requires identical major and either a strictly greater minor
or an equal minor with patch at least the constraint's.  In particular
`^0.2.0` admits `0.2.5` and rejects `0.3.0`. -/
theorem satisfies_caret_semantics :
    (∀ (rreq : String → Option (SemVer → Bool)) (v version : String) (cv ver : SemVer),
      VersionComparator.parse_version v = some cv →
      Version.parse version = some ver →
      (cv.major = 0 →
        (VersionComparator.satisfies rreq (.Caret v) version = true ↔
          ver.major = 0 ∧ ver.minor = cv.minor ∧ cv.patch ≤ ver.patch)) ∧
      (cv.major ≠ 0 →
        (VersionComparator.satisfies rreq (.Caret v) version = true ↔
          ver.major = cv.major ∧
            (cv.minor < ver.minor ∨ (ver.minor = cv.minor ∧ cv.patch ≤ ver.patch))))) ∧
    (∀ rreq : String → Option (SemVer → Bool),
      VersionComparator.satisfies rreq (.Caret "0.2.0") "0.2.5" = true ∧
      VersionComparator.satisfies rreq (.Caret "0.2.0") "0.3.0" = false) := by
  constructor
  · intro rreq v version cv ver hv hver
    have hsat : VersionComparator.satisfies rreq (.Caret v) version =
        VersionComparator.parse_caret_range v version := rfl
    constructor
    · intro hmaj
      rw [hsat]
      unfold VersionComparator.parse_caret_range
      simp only [hv, hver, if_pos hmaj]
      split_ifs with h
      · simpa using h
      · simpa using h
    · intro hmaj
      rw [hsat]
      unfold VersionComparator.parse_caret_range
      simp only [hv, hver, if_neg hmaj]
      split_ifs with h1 h2 h3 <;> simp_all
  · intro rreq
    exact ⟨rfl, rfl⟩

/-- Witness for `satisfies_caret_semantics`: `^1.2.0` admits `1.9.9`
(same major, strictly greater minor). -/
theorem satisfies_caret_witness :
    VersionComparator.satisfies (fun _ => none) (.Caret "1.2.0") "1.9.9" = true := by
  have h := (satisfies_caret_semantics.1 (fun _ => none) "1.2.0" "1.9.9"
    ⟨1, 2, 0, [], []⟩ ⟨1, 9, 9, [], []⟩ (by decide) (by decide)).2 (by decide)
  exact h.mpr (by decide)

/-- C2: evaluation of `add_ecosystem_result` at a result carrying one
single Medium-severity vulnerability.  The claim requires the low bucket
to grow by the number of Low-severity vulnerabilities (here `0`), but the
raw pre-loop increment `low_vulnerabilities += result.vulnerabilities.len()`
makes it grow by `1`; the medium bucket is correctly `1`, and
`vulnerabilities_found` is left at `0`. -/
theorem low_bucket_counts_all_severities :
    ((ScanReport.new 0 "proj").add_ecosystem_result .Composer
        { ecosystem := .Composer
          files_found := ["composer.json"]
          dependencies := []
          updates := []
          vulnerabilities := [⟨"GHSA-1", "summary", "details", .Medium, [], [], []⟩]
          errors := [] }).summary.low_vulnerabilities = 1 ∧
    ((ScanReport.new 0 "proj").add_ecosystem_result .Composer
        { ecosystem := .Composer
          files_found := ["composer.json"]
          dependencies := []
          updates := []
          vulnerabilities := [⟨"GHSA-1", "summary", "details", .Medium, [], [], []⟩]
          errors := [] }).summary.medium_vulnerabilities = 1 ∧
    ((ScanReport.new 0 "proj").add_ecosystem_result .Composer
        { ecosystem := .Composer
          files_found := ["composer.json"]
          dependencies := []
          updates := []
          vulnerabilities := [⟨"GHSA-1", "summary", "details", .Medium, [], [], []⟩]
          errors := [] }).summary.vulnerabilities_found = 0 := by
  decide

/-- The severity-classification loop never touches `vulnerabilities_found`. -/
lemma countSeverities_vulnerabilities_found (vs : List Vulnerability) :
    ∀ s : ScanSummary,
      (countSeverities s vs).vulnerabilities_found = s.vulnerabilities_found := by
  induction vs with
  | nil => intro s; rfl
  | cons v vs ih =>
    intro s
    simp only [countSeverities, List.foldl_cons] at ih ⊢
    rw [ih]
    cases hv : v.severity <;> rfl

/-- `add_ecosystem_result` never touches `vulnerabilities_found`. -/
lemma add_ecosystem_result_vulnerabilities_found (r : ScanReport) (e : Ecosystem)
    (res : EcosystemScanResult) :
    (r.add_ecosystem_result e res).summary.vulnerabilities_found =
      r.summary.vulnerabilities_found := by
  unfold ScanReport.add_ecosystem_result
  simp [countSeverities_vulnerabilities_found]

/-- C10: starting from `ScanReport::new`, no sequence of
`add_ecosystem_result` folds ever changes `summary.vulnerabilities_found`
from `0`, whatever vulnerabilities the folded results carry. -/
theorem vulnerabilities_found_stays_zero :
    ∀ (timestamp : Nat) (path : String)
      (folds : List (Ecosystem × EcosystemScanResult)),
      (folds.foldl (fun r p => r.add_ecosystem_result p.1 p.2)
        (ScanReport.new timestamp path)).summary.vulnerabilities_found = 0 := by
  intro ts path folds
  suffices h : ∀ r : ScanReport,
      (folds.foldl (fun r p => r.add_ecosystem_result p.1 p.2) r).summary.vulnerabilities_found
        = r.summary.vulnerabilities_found by
    rw [h]; rfl
  induction folds with
  | nil => intro r; rfl
  | cons p ps ih =>
    intro r
    simp only [List.foldl_cons]
    rw [ih, add_ecosystem_result_vulnerabilities_found]

/-- C4: evaluation of a completed scan that produced one update and one
vulnerability.  The folded `EcosystemScanResult` (inside
`ecosystem_results`) carries the update and the vulnerability, but the
report's flattened `updates` and `vulnerabilities` lists remain empty:
`add_ecosystem_result` never extends them, even though the CLI display
layer iterates precisely these lists. -/
theorem flattened_lists_stay_empty :
    Scanner.scan (.ok [⟨.Composer, "composer.json", "{}"⟩])
      (fun _ => some (fun _ =>
        .ok [⟨"monolog/monolog", "1.0.0", .Caret "1.0.0", "composer.json"⟩]))
      (fun _ => some (fun _ =>
        .ok (some ⟨⟨"monolog/monolog", "1.0.0", .Caret "1.0.0", "composer.json"⟩,
          "1.0.0", "2.0.0", none⟩)))
      (fun _ => some (fun _ =>
        .ok [⟨"GHSA-77", "summary", "details", .High, [], [], []⟩]))
      0 "proj" =
    .ok
      { timestamp := 0
        scanned_path := "proj"
        elapsed := 0
        total_dependency_files := 1
        total_dependencies := 1
        summary :=
          { updates_available := 1
            vulnerabilities_found := 0
            critical_vulnerabilities := 0
            high_vulnerabilities := 1
            medium_vulnerabilities := 0
            low_vulnerabilities := 1
            outdated_dependencies := 1
            up_to_date_dependencies := 0 }
        ecosystem_results :=
          [(.Composer,
            { ecosystem := .Composer
              files_found := ["composer.json"]
              dependencies := [⟨"monolog/monolog", "1.0.0", .Caret "1.0.0", "composer.json"⟩]
              updates := [⟨⟨"monolog/monolog", "1.0.0", .Caret "1.0.0", "composer.json"⟩,
                "1.0.0", "2.0.0", none⟩]
              vulnerabilities := [⟨"GHSA-77", "summary", "details", .High, [], [], []⟩]
              errors := [] })]
        updates := []
        vulnerabilities := []
        warnings := []
        errors := [] } := by
  decide

/-- The per-dependency loop under the default `get_update_info` derived
from an infallible `get_latest_version`: every dependency with a reported
latest version contributes exactly one `UpdateInfo`, and no
vulnerabilities are collected when no scanner is registered. -/
lemma processDeps_defaultClient (latestFn : Dependency → Option String)
    (deps : List Dependency) :
    processDeps (some (fun d => defaultGetUpdateInfo (fun d' => .ok (latestFn d')) d))
        none deps =
      .ok (deps.filterMap (fun d => (latestFn d).map (fun l =>
        ({ dependency := d
           current_version := d.version
           latest_version := l
           changelog := none } : UpdateInfo))), []) := by
  induction deps with
  | nil => rfl
  | cons d rest ih =>
    cases hl : latestFn d with
    | none =>
      have hd : defaultGetUpdateInfo (fun d' => Except.ok (latestFn d')) d =
          Except.ok none := by
        simp only [defaultGetUpdateInfo, hl]
      simp [processDeps, hd, ih, List.filterMap_cons, hl]
    | some l =>
      have hd : defaultGetUpdateInfo (fun d' => Except.ok (latestFn d')) d =
          Except.ok (some { dependency := d
                            current_version := d.version
                            latest_version := l
                            changelog := none }) := by
        simp only [defaultGetUpdateInfo, hl]
      simp [processDeps, hd, ih, List.filterMap_cons, hl]

/-- `filterMap` over an option-producing function has as many elements as
there are inputs on which the function is `some`. -/
lemma length_filterMap_isSome {β γ : Type} (f : β → Option γ) (l : List β) :
    (l.filterMap f).length = l.countP (fun b => (f b).isSome) := by
  induction l with
  | nil => rfl
  | cons b l ih =>
    cases hf : f b <;> simp [List.filterMap_cons, hf, List.countP_cons, ih]

/-- C3 (amended): scanning one ecosystem file whose parser yields `deps`,
with the registered registry client being the default `get_update_info`
over an infallible `get_latest_version`, produces
`updates_available = M` and `up_to_date_dependencies = N - M` where `N`
is the number of dependencies and `M` is the number of dependencies for
which the registry reports ANY latest version — not the number whose
latest is strictly greater than the current version, since the default
layer synthesizes an `UpdateInfo` without comparing versions. -/
theorem scan_counts_reported_latest_versions :
    ∀ (timestamp : Nat) (path : String) (file : DependencyFile)
      (deps : List Dependency) (latestFn : Dependency → Option String),
      (Scanner.scan (.ok [file])
          (fun e => if e = file.ecosystem then some (fun _ => .ok deps) else none)
          (fun e => if e = file.ecosystem then
            some (fun d => defaultGetUpdateInfo (fun d' => .ok (latestFn d')) d) else none)
          (fun _ => none) timestamp path).map
        (fun r => (r.summary.updates_available, r.summary.up_to_date_dependencies)) =
      .ok (deps.countP (fun d => (latestFn d).isSome),
           deps.length - deps.countP (fun d => (latestFn d).isSome)) := by
  intro ts path file deps latestFn
  simp only [Scanner.scan, scanGo, eq_self_iff_true, if_true]
  rw [processDeps_defaultClient]
  simp [Except.map, ScanReport.add_ecosystem_result, countSeverities, ScanReport.new,
    ScanSummary.default, length_filterMap_isSome]

/-- C3 counterexample: one dependency at version `"1.0.0"` whose registry
latest version is the very same `"1.0.0"` — so the number of dependencies
with a strictly greater latest version is `M = 0` (the two versions parse
identically) — yet under the default `get_update_info` the report says
`updates_available = 1` and `up_to_date_dependencies = 0`, where the
claim demands `0` and `1`. -/
theorem scan_counts_equal_latest_as_update :
    (Scanner.scan (.ok [⟨.Composer, "composer.json", "{}"⟩])
        (fun _ => some (fun _ =>
          .ok [⟨"acme/lib", "1.0.0", .Caret "1.0.0", "composer.json"⟩]))
        (fun _ => some (fun d => defaultGetUpdateInfo (fun _ => .ok (some "1.0.0")) d))
        (fun _ => none) 0 "proj").map
      (fun r => (r.summary.updates_available, r.summary.up_to_date_dependencies)) =
      .ok (1, 0) ∧
    Version.parse "1.0.0" = some ⟨1, 0, 0, [], []⟩ ∧
    semverLt ⟨1, 0, 0, [], []⟩ ⟨1, 0, 0, [], []⟩ = false ∧
    VersionComparator.classify_update "1.0.0" "1.0.0" = .None := by
  decide

/-- C5: error asymmetry of the per-dependency loop.  First, once the loop
reaches a dependency on which the registered registry client fails (all
earlier client calls having succeeded), the whole loop returns that error
— dependencies after it are never processed and no result is produced.
Second, replacing a registered vulnerability scanner's failures by
successful empty answers does not change the loop's outcome at all:
scanner failures are swallowed as "no vulnerabilities" and the scan
continues. -/
theorem registry_fatal_vulnerability_swallowed :
    (∀ (client : Dependency → Except RensaError (Option UpdateInfo))
       (scanner : Option (Dependency → Except RensaError (List Vulnerability)))
       (pre : List Dependency) (dep : Dependency) (post : List Dependency)
       (e : RensaError),
      (∀ d ∈ pre, ∃ r, client d = .ok r) →
      client dep = .error e →
      processDeps (some client) scanner (pre ++ dep :: post) = .error e) ∧
    (∀ (client : Option (Dependency → Except RensaError (Option UpdateInfo)))
       (scanner : Dependency → Except RensaError (List Vulnerability))
       (deps : List Dependency),
      processDeps client (some scanner) deps =
        processDeps client
          (some (fun d =>
            match scanner d with
            | .ok vulns => .ok vulns
            | .error _ => (.ok [] : Except RensaError (List Vulnerability)))) deps) := by
  constructor
  · intro client scanner pre dep post e hpre hdep
    induction pre with
    | nil => simp [processDeps, hdep]
    | cons p ps ih =>
      obtain ⟨r, hr⟩ := hpre p (by simp)
      have hrest := ih (fun d hd => hpre d (by simp [hd]))
      cases r <;> simp [processDeps, hr, hrest]
  · intro client scanner deps
    induction deps with
    | nil => rfl
    | cons d rest ih =>
      cases hs : scanner d <;> simp [processDeps, hs, ih]

/-- Witness for `registry_fatal_vulnerability_swallowed`: a two-dependency
loop in which the client succeeds on the first dependency and fails on
the second returns the second call's error. -/
theorem registry_fatal_witness :
    processDeps
      (some (fun d =>
        if d.name = "bad" then .error (.RegistryError "https://packagist.org")
        else .ok none))
      (some (fun _ => .ok []))
      [⟨"good", "1.0.0", .Caret "1.0.0", "composer.json"⟩,
       ⟨"bad", "1.0.0", .Caret "1.0.0", "composer.json"⟩] =
      .error (.RegistryError "https://packagist.org") := by
  exact registry_fatal_vulnerability_swallowed.1 _ (some (fun _ => .ok []))
    [⟨"good", "1.0.0", .Caret "1.0.0", "composer.json"⟩]
    ⟨"bad", "1.0.0", .Caret "1.0.0", "composer.json"⟩ [] _
    (fun d hd => by
      simp only [List.mem_singleton] at hd
      subst hd
      exact ⟨none, rfl⟩)
    rfl

/-- The retry loop when every remaining attempt transport-fails: the
terminal error is returned, each non-final attempt sleeps `2^attempt`
seconds, and `remaining + 1` attempts are issued. -/
lemma fetchLoop_all_transport {α : Type} (outcomes : Nat → AttemptOutcome α) :
    ∀ (remaining attempt : Nat),
      (∀ i, attempt ≤ i → i ≤ attempt + remaining → outcomes i = .transportError) →
      fetchLoop outcomes attempt remaining =
        ⟨.failure, (List.range remaining).map (fun j => 2 ^ (attempt + j)), remaining + 1⟩ := by
  intro remaining
  induction remaining with
  | zero =>
    intro attempt h
    have h0 := h attempt le_rfl (by omega)
    simp [fetchLoop, h0]
  | succ r ih =>
    intro attempt h
    have h0 := h attempt le_rfl (by omega)
    have hrec := ih (attempt + 1) (fun i h1 h2 => h i (by omega) (by omega))
    simp only [fetchLoop, h0, hrec]
    congr 1
    rw [List.range_succ_eq_map, List.map_cons, List.map_map, Nat.add_zero]
    congr 1
    exact List.map_congr_left (fun j _ => by
      simp only [Function.comp_apply]
      congr 1
      omega)

/-- C6: a fetch whose every attempt fails at the transport level returns
an error after exactly `retries + 1` attempts, sleeping `2^i` seconds
after each failed attempt `i < retries` and not sleeping after the final
attempt; the default retry count is 3 (hence 4 total attempts). -/
theorem fetch_retry_exhaustion :
    (∀ (α : Type) (retries : Nat) (outcomes : Nat → AttemptOutcome α),
      (∀ i, i ≤ retries → outcomes i = .transportError) →
      HttpClient.fetch outcomes retries =
        ⟨.failure, (List.range retries).map (fun i => 2 ^ i), retries + 1⟩) ∧
    DEFAULT_RETRIES = 3 := by
  constructor
  · intro α retries outcomes h
    have hl := fetchLoop_all_transport outcomes retries 0 (fun i h1 h2 => h i (by omega))
    simpa [HttpClient.fetch] using hl
  · rfl

/-- Witness for `fetch_retry_exhaustion` at the default retry count. -/
theorem fetch_retry_exhaustion_witness :
    HttpClient.fetch (fun _ => (AttemptOutcome.transportError : AttemptOutcome Nat))
        DEFAULT_RETRIES =
      ⟨.failure, [1, 2, 4], 4⟩ := by
  have h := fetch_retry_exhaustion.1 Nat DEFAULT_RETRIES (fun _ => .transportError)
    (fun i _ => rfl)
  rw [h]
  decide

/-- The retry loop when every remaining attempt yields a non-success
HTTP response: the loop exhausts and reaches `unreachable!()`. -/
lemma fetchLoop_all_nonsuccess {α : Type} (outcomes : Nat → AttemptOutcome α) :
    ∀ (remaining attempt : Nat),
      (∀ i, attempt ≤ i → i ≤ attempt + remaining →
        ∃ p, outcomes i = .response false p) →
      (fetchLoop outcomes attempt remaining).result = .panicked := by
  intro remaining
  induction remaining with
  | zero =>
    intro attempt h
    obtain ⟨p, hp⟩ := h attempt le_rfl (by omega)
    simp [fetchLoop, hp]
  | succ r ih =>
    intro attempt h
    obtain ⟨p, hp⟩ := h attempt le_rfl (by omega)
    have hrec := ih (attempt + 1) (fun i h1 h2 => h i (by omega) (by omega))
    simp [fetchLoop, hp, hrec]

/-- C9: when every one of the `retries + 1` attempts of the fetch loop
(shared by `fetch` and `fetch_post`) receives a response with
non-success status, the loop exhausts and control reaches the post-loop
`unreachable!()`: the call panics instead of returning an error value. -/
theorem fetch_nonsuccess_exhaustion_panics :
    ∀ (α : Type) (retries : Nat) (outcomes : Nat → AttemptOutcome α),
      (∀ i, i ≤ retries → ∃ p, outcomes i = .response false p) →
      (HttpClient.fetch outcomes retries).result = .panicked := by
  intro α retries outcomes h
  exact fetchLoop_all_nonsuccess outcomes retries 0 (fun i h1 h2 => h i (by omega))

/-- Witness for `fetch_nonsuccess_exhaustion_panics`: four 500-style
responses at the default retry count end in the panic state. -/
theorem fetch_nonsuccess_panics_witness :
    (HttpClient.fetch (fun _ => (AttemptOutcome.response false none : AttemptOutcome Nat))
        DEFAULT_RETRIES).result = .panicked := by
  exact fetch_nonsuccess_exhaustion_panics Nat DEFAULT_RETRIES _ (fun i _ => ⟨none, rfl⟩)

/-- C7: `CacheManager::get` — an absent cache file yields `Ok(None)`;
content that fails to deserialize yields a propagated
`DeserializationError` (distinct from the not-found outcome, which is not
an error at all); a deserialized-but-expired entry yields `Ok(None)`; a
fresh entry is returned; and an entry is expired exactly when its
`ttl_seconds` is `0` or `now` strictly exceeds
`timestamp + ttl_seconds`. -/
theorem cache_get_semantics :
    ∀ (α : Type) (fs : String → FileRead) (deser : String → Option (CacheEntry α))
      (now : Nat) (base dir key : String),
      (fs (path_for base dir key) = .absent →
        CacheManager.get fs deser now base dir key = .ok none) ∧
      (∀ c, fs (path_for base dir key) = .content c → deser c = none →
        CacheManager.get fs deser now base dir key = .error .DeserializationError) ∧
      (∀ c entry, fs (path_for base dir key) = .content c → deser c = some entry →
        CacheEntry.is_expired entry now = true →
        CacheManager.get fs deser now base dir key = .ok none) ∧
      (∀ c entry, fs (path_for base dir key) = .content c → deser c = some entry →
        CacheEntry.is_expired entry now = false →
        CacheManager.get fs deser now base dir key = .ok (some entry)) ∧
      (∀ entry : CacheEntry α, CacheEntry.is_expired entry now = true ↔
        (entry.ttl_seconds = 0 ∨ entry.timestamp + entry.ttl_seconds < now)) := by
  intro α fs deser now base dir key
  refine ⟨?_, ?_, ?_, ?_, ?_⟩
  · intro h
    simp [CacheManager.get, h]
  · intro c h1 h2
    simp [CacheManager.get, h1, h2]
  · intro c entry h1 h2 h3
    simp [CacheManager.get, h1, h2, h3]
  · intro c entry h1 h2 h3
    simp [CacheManager.get, h1, h2, h3]
  · intro entry
    unfold CacheEntry.is_expired
    split_ifs with h <;> simp [h]

/-- Witness for `cache_get_semantics`: a present, well-formed entry with
`ttl_seconds = 0` is expired at any time, so `get` yields `Ok(None)`. -/
theorem cache_get_witness :
    CacheManager.get (fun _ => FileRead.content "stored")
        (fun _ => some (⟨(42 : Nat), 100, 0⟩ : CacheEntry Nat)) 100 "cache" "api" "pkg" =
      .ok none := by
  exact (cache_get_semantics Nat (fun _ => .content "stored")
    (fun _ => some ⟨42, 100, 0⟩) 100 "cache" "api" "pkg").2.2.1 "stored" ⟨42, 100, 0⟩
    rfl rfl (by decide)

end Rensa
